import Mathlib

set_option maxRecDepth 8192

/-!
# Ship proxy system: verification of the framing and multiplexing core

A shallow embedding of the two Python sources of the ship-proxy system:
`ship_proxy.py` (the on-ship multiplexer) and `offshore_proxy.py` (the remote
executor).  Byte streams are modelled as `List Nat` (each element a byte value),
text as `String`.  Sockets are modelled by the finite byte sequence that is
received on them before the peer closes, so `recv`-style loops become pure
functions of that sequence.  Destination-network I/O on the offshore side is
modelled by an oracle giving, per `(host, port)`, either a connect-level
failure or the list of chunks collected before the inactivity timeout.
-/

namespace ShipProxySystem

/-! ## Byte-level framing (`struct.pack('>I', length) + bytes([msg_type])`) -/

/-- Big-endian 4-byte encoding of a length, as produced by
`struct.pack('>I', length)`.  (Python raises for `length ≥ 2^32`; theorems
about the encoding therefore carry that bound.) -/
def be32Encode (n : Nat) : List Nat :=
  [n / 16777216 % 256, n / 65536 % 256, n / 256 % 256, n % 256]

/-- Big-endian 4-byte decoding, as computed by `struct.unpack('>I', header[:4])`. -/
def be32Decode (b : List Nat) : Nat :=
  match b with
  | [b0, b1, b2, b3] => ((b0 * 256 + b1) * 256 + b2) * 256 + b3
  | _ => 0

/-- `send_message(msg_type, payload)` of both sides: the bytes put on the wire,
`struct.pack('>I', len(payload)) + bytes([msg_type]) + payload`. -/
def encodeMessage (msgType : Nat) (payload : List Nat) : List Nat :=
  be32Encode payload.length ++ [msgType] ++ payload

/-- `_recv_all(length)` over a modelled byte stream: returns exactly `length`
bytes and the remainder of the stream, or `none` when the stream ends first
(Python returns `None` after a zero-byte `recv`).  For `length = 0` the Python
loop body never runs and `b''` is returned, which here is `some ([], s)`. -/
def recvAll (n : Nat) (s : List Nat) : Option (List Nat × List Nat) :=
  if s.length < n then none else some (s.take n, s.drop n)

/-! ## Ship side: `ShipProxy.read_response` -/

/-- `ShipProxy.read_response`: reads a 5-byte header from the upstream stream,
requires the type byte to be `1`, then reads the declared number of payload
bytes; the `if not response_data` check treats both a closed stream (`None`)
and an empty payload (`b''`) as "Failed to read response data". -/
def readResponse (s : List Nat) : Except String (List Nat) :=
  match recvAll 5 s with
  | none => Except.error "Failed to read response header"
  | some (header, rest) =>
    let length := be32Decode (header.take 4)
    let msgType := header.getD 4 0
    if msgType ≠ 1 then Except.error ("Unexpected message type: " ++ toString msgType)
    else
      match recvAll length rest with
      | none => Except.error "Failed to read response data"
      | some (data, _) =>
        if data = [] then Except.error "Failed to read response data"
        else Except.ok data

/-! ## Offshore side: the receive loop of `OffshoreProxy.handle_ship_connection`

The loop is parametric in `proc`, the modelled `process_request` body, so that
properties of the loop itself (header handling, type dispatch, continuation)
are stated for every request processor.  The returned list holds the frames
`(msg_type, payload)` passed to `send_message` in order. -/

/-- `OffshoreProxy.handle_ship_connection`: repeatedly reads a 5-byte header;
on a type byte other than `0` it logs and `continue`s *without reading the
declared payload*; on type `0` it reads the payload (an empty payload, like a
closed stream, breaks the loop via `if not request_data`), processes it, and
sends the result framed with type `1`. -/
def handleShipConnection (proc : List Nat → List Nat) (s : List Nat) :
    List (Nat × List Nat) :=
  if h5 : s.length < 5 then []
  else
    let header := s.take 5
    let length := be32Decode (header.take 4)
    let msgType := header.getD 4 0
    let rest := s.drop 5
    if msgType ≠ 0 then handleShipConnection proc rest
    else if hlen : rest.length < length then []
    else
      let data := rest.take length
      if data = [] then []
      else (1, proc data) :: handleShipConnection proc (rest.drop length)
termination_by s.length
decreasing_by
  · simp only [List.length_drop]; omega
  · simp only [List.length_drop]; omega

/-- The discard policy described for the Framed Channel: an unrecognized type
is tolerated by skipping the header *and its declared payload*, then awaiting
the next header.  Modelled from the spec for comparison with
`handleShipConnection`; all other branches match the source loop. -/
def handleShipConnectionSkipSpec (proc : List Nat → List Nat) (s : List Nat) :
    List (Nat × List Nat) :=
  if h5 : s.length < 5 then []
  else
    let header := s.take 5
    let length := be32Decode (header.take 4)
    let msgType := header.getD 4 0
    let rest := s.drop 5
    if msgType ≠ 0 then
      if hlen : rest.length < length then []
      else handleShipConnectionSkipSpec proc (rest.drop length)
    else if hlen : rest.length < length then []
    else
      let data := rest.take length
      if data = [] then []
      else (1, proc data) :: handleShipConnectionSkipSpec proc (rest.drop length)
termination_by s.length
decreasing_by
  · simp only [List.length_drop]; omega
  · simp only [List.length_drop]; omega

/-! ## Python string primitives

Executable models of the Python `str` operations the two sources use
(`split`, `strip`, `lower`, `startswith`, f-string concatenation).  They are
written by structural recursion over the underlying character lists so that
every concrete instance reduces inside the kernel. -/

/-- `b.startswith(a)` at the character-list level. -/
def charsStartWith : List Char → List Char → Bool
  | [], _ => true
  | _ :: _, [] => false
  | p :: ps, c :: cs => p = c && charsStartWith ps cs

/-- ASCII lowering of one character (the relevant fragment of `str.lower`). -/
def asciiLower (c : Char) : Char :=
  if 65 ≤ c.toNat ∧ c.toNat ≤ 90 then Char.ofNat (c.toNat + 32) else c

/-- `s.lower()` for the ASCII header/URL text the sources handle. -/
def strToLower (s : String) : String := String.mk (s.data.map asciiLower)

/-- The whitespace class removed by Python `str.strip()`. -/
def pyWhitespace (c : Char) : Bool :=
  c = ' ' || c = '\t' || c = '\n' || c = '\r' || c = '\x0b' || c = '\x0c'

/-- `s.strip()`. -/
def pyStrip (s : String) : String :=
  String.mk (((s.data.dropWhile pyWhitespace).reverse.dropWhile pyWhitespace).reverse)

/-- `s.startswith(pre)`. -/
def strStartsWith (s pre : String) : Bool := charsStartWith pre.data s.data

/-- Fuel-driven worker for `str.split(sep)`: scans left to right, cutting at
each non-overlapping occurrence of the (nonempty) separator and keeping empty
segments.  One character is consumed per step, so fuel equal to the input
length always suffices. -/
def splitSepGo (sep : List Char) : Nat → List Char → List Char → List (List Char)
  | _, [], acc => [acc.reverse]
  | 0, l, acc => [acc.reverse ++ l]
  | fuel + 1, c :: cs, acc =>
    if charsStartWith sep (c :: cs) then
      acc.reverse :: splitSepGo sep fuel (List.drop (sep.length - 1) cs) []
    else splitSepGo sep fuel cs (c :: acc)

/-- `s.split(sep)` for a nonempty separator (Python keeps empty segments). -/
def pySplit (sep s : String) : List String :=
  (splitSepGo sep.data s.data.length s.data []).map String.mk

/-- Joining with a separator (inverse direction of `pySplit`, used to model
`str.split(sep, maxsplit)` by re-joining the tail). -/
def strJoinSep (sep : String) : List String → String
  | [] => ""
  | [x] => x
  | x :: xs => x ++ sep ++ strJoinSep sep xs

/-- `s.split(' ', 2)`: at most three fields, the third keeping its spaces. -/
def pySplit2Spaces (s : String) : List String :=
  match pySplit " " s with
  | [] => []
  | [a] => [a]
  | [a, b] => [a, b]
  | a :: b :: rest => [a, b, strJoinSep " " rest]

/-- `line.split(':', 1)[1]`: everything after the first colon (empty when no
colon is present; the sources only use it on lines known to contain one). -/
def afterFirstColon (line : String) : String :=
  match pySplit ":" line with
  | [] => ""
  | [_] => ""
  | _ :: rest => strJoinSep ":" rest

/-- `int(s)` on a plain digit string, `none` otherwise. -/
def charsToNat : List Char → Option Nat
  | [] => none
  | cs => go cs 0
where
  go : List Char → Nat → Option Nat
    | [], acc => some acc
    | c :: cs, acc =>
      if c.isDigit then go cs (acc * 10 + (c.toNat - 48)) else none

/-! ## Ship side: request items, serialization, the pump, and the handler -/

/-- `RequestItem.__init__` (minus the handler back-reference and the
`threading.Event`, which the completion results below stand in for):
the method, target URL, header mapping (as the ordered key/value pairs of the
Python dict) and decoded body of one client request. -/
structure RequestItem where
  method : String
  url : String
  headers : List (String × String)
  body : String
  deriving DecidableEq

/-- `ShipProxy.build_request_string`: request line, one `name: value` line per
dict entry, a blank line, then the body (the `if request_item.body:` guard
appends nothing for an empty body). -/
def buildRequestString (item : RequestItem) : String :=
  let requestLine := item.method ++ " " ++ item.url ++ " HTTP/1.1\r\n"
  let withHeaders :=
    item.headers.foldl (fun acc hv => acc ++ hv.1 ++ ": " ++ hv.2 ++ "\r\n") requestLine
  let withBlank := withHeaders ++ "\r\n"
  if item.body = "" then withBlank else withBlank ++ item.body

/-- `email.message.Message.__getitem__`: the value of the first header whose
name matches case-insensitively (`None`, here `""`, never arises for keys
taken from the list itself). -/
def msgGet (raws : List (String × String)) (k : String) : String :=
  match raws.find? (fun p => strToLower p.1 = strToLower k) with
  | some p => p.2
  | none => ""

/-- One `d[k] = v` assignment on a Python dict held as its ordered item list:
an existing exact key keeps its position and takes the new value, a new key is
appended. -/
def dictAssign (d : List (String × String)) (k v : String) : List (String × String) :=
  if d.any (fun p => p.1 = k) then d.map (fun p => if p.1 = k then (k, v) else p)
  else d ++ [(k, v)]

/-- `dict(self.headers)` in `ProxyHTTPRequestHandler.handle_request`: Python
builds the dict from `keys()` (which repeats duplicated header names) and
`__getitem__` (which returns the first case-insensitive match), so a
duplicated name collapses to one entry carrying the first received value. -/
def dictOfMessage (raws : List (String × String)) : List (String × String) :=
  raws.foldl (fun d p => dictAssign d p.1 (msgGet raws p.1)) []

/-- `handle_request` → `queue_request` → `build_request_string` composed: the
request string the pump sends for a client request whose raw header list (in
received order, duplicates included) is `raws`. -/
def buildFromRawHeaders (method url : String) (raws : List (String × String))
    (body : String) : String :=
  buildRequestString ⟨method, url, dictOfMessage raws, body⟩

/-- Outcome of one `send_message`/`read_response` exchange on the upstream
socket, as an oracle over the request string written: success with the
response bytes, an exception raised inside `send_message`, or an exception
raised inside `read_response` (after the request was written). -/
inductive ExchangeOutcome where
  | ok (resp : String)
  | sendErr (e : String)
  | readErr (e : String)

/-- A `RequestItem` after `process_requests` has handled it and fired its
`response_event`: the fields the handler thread then reads. -/
structure CompletedItem where
  item : RequestItem
  response : Option String
  error : Option String
  deriving DecidableEq

/-- Observable actions of the pump on the upstream socket: a
`send_message(0, ...)` call and a completed `read_response`. -/
inductive PumpEvent where
  | write (msgType : Nat) (payload : String)
  | readResp (payload : String)
  deriving DecidableEq

/-- `ShipProxy.process_requests` over the queue contents in enqueue order:
dequeues each item; when `self.connected` is false the item fails with
"No connection to offshore proxy"; otherwise the built request string is sent
(type 0) and the response awaited, any exception becoming the item's error.
The `connected` flag is threaded through unchanged because the loop body never
assigns it.  Returns the completed items in order, the socket events in order,
and the final flag. -/
def processRequests (exchange : String → ExchangeOutcome) :
    Bool → List RequestItem → List CompletedItem × List PumpEvent × Bool
  | connected, [] => ([], [], connected)
  | connected, item :: restItems =>
    if connected = false then
      let r := processRequests exchange connected restItems
      (⟨item, none, some "No connection to offshore proxy"⟩ :: r.1, r.2.1, r.2.2)
    else
      let requestStr := buildRequestString item
      match exchange requestStr with
      | ExchangeOutcome.ok resp =>
        let r := processRequests exchange connected restItems
        (⟨item, some resp, none⟩ :: r.1,
          PumpEvent.write 0 requestStr :: PumpEvent.readResp resp :: r.2.1, r.2.2)
      | ExchangeOutcome.sendErr e =>
        let r := processRequests exchange connected restItems
        (⟨item, none, some e⟩ :: r.1, r.2.1, r.2.2)
      | ExchangeOutcome.readErr e =>
        let r := processRequests exchange connected restItems
        (⟨item, none, some e⟩ :: r.1, PumpEvent.write 0 requestStr :: r.2.1, r.2.2)

/-- Python truthiness of an optional string (`None` and `""` are falsy). -/
def pyTruthy : Option String → Bool
  | none => false
  | some s => s ≠ ""

/-- What `handle_request` writes back to the client socket. -/
inductive ClientAction where
  | sendError (code : Nat) (message : String)
  | writeRaw (data : String)
  deriving DecidableEq

/-- The tail of `ProxyHTTPRequestHandler.handle_request` after the wait on
`response_event` returns: `if request_item.error:` → 502 with the message,
`if not request_item.response:` → 504 Gateway Timeout, otherwise the stored
response bytes are written verbatim. -/
def handleRequestResult (error response : Option String) : ClientAction :=
  if pyTruthy error then
    ClientAction.sendError 502 ("Proxy Error: " ++ error.getD "")
  else if pyTruthy response = false then
    ClientAction.sendError 504 "Gateway Timeout"
  else ClientAction.writeRaw (response.getD "")

/-! ## Offshore side: request execution (`OffshoreProxy.process_request`) -/

/-- Result of contacting one destination `(host, port)`: either the
`connect`/`sendall` stage raises (resolution or connect failure), or the
5-second-inactivity `recv` loop collects these chunks before a timeout or a
peer close ends it.  A timeout before the first byte is the `ok []` case. -/
inductive NetOutcome where
  | connectFail
  | ok (chunks : List String)

/-- A destination connection attempt made by `handle_http_request`. -/
inductive NetAction where
  | connect (host : String) (port : Nat)
  deriving DecidableEq

/-- `urlparse(url)` restricted to the `scheme://host[:port][/path]` shapes the
proxy receives: the text before `"://"`.  Absent a `"://"`, `urlparse` puts
everything in `path` and scheme/hostname/port are empty. -/
def urlScheme (url : String) : Option String :=
  match pySplit "://" url with
  | [] => none
  | [_] => none
  | s :: _ => some (strToLower s)

/-- The authority part of the URL: after `"://"`, up to the first `/`. -/
def urlNetloc (url : String) : Option String :=
  match pySplit "://" url with
  | [] => none
  | [_] => none
  | _ :: rest => some (String.mk ((strJoinSep "://" rest).data.takeWhile (fun c => c ≠ '/')))

/-- `urlparse(url).hostname`: the authority up to the port colon, lowercased;
`None` when absent or empty (the `if not host:` checks treat both alike). -/
def urlHostname (url : String) : Option String :=
  match urlNetloc url with
  | none => none
  | some netloc =>
    let host := String.mk (netloc.data.takeWhile (fun c => c ≠ ':'))
    if host = "" then none else some (strToLower host)

/-- `urlparse(url).port`: the digits after the colon in the authority, `none`
when absent or empty.  (Python raises `ValueError` on a non-digit port, which
the surrounding `except` turns into a 502; no theorem below exercises that
shape.) -/
def urlPort (url : String) : Option Nat :=
  match urlNetloc url with
  | none => none
  | some netloc =>
    match pySplit ":" netloc with
    | [] => none
    | [_] => none
    | _ :: rest => charsToNat (strJoinSep ":" rest).data

/-- The header fallback of `handle_http_request`: the first line after the
request line whose lowercase form starts with `"host:"` yields
`line.split(':', 1)[1].strip()`. -/
def findHostHeader : List String → Option String
  | [] => none
  | line :: rest =>
    if strStartsWith (strToLower line) "host:" then some (pyStrip (afterFirstColon line))
    else findHostHeader rest

/-- The host/port resolution of `handle_http_request`: hostname and port from
the URL (port defaulting by scheme through Python's falsy `or`, so an explicit
port `0` also falls back), then the `Host` header when the URL has no truthy
hostname; `none` when the final `if not host:` check still fails (the 400
branch). -/
def resolveHost (requestStr url : String) : Option (String × Nat) :=
  let portDefault := if urlScheme url = some "https" then 443 else 80
  let port :=
    match urlPort url with
    | some p => if p = 0 then portDefault else p
    | none => portDefault
  let host :=
    match urlHostname url with
    | some h => some h
    | none => findHostHeader ((pySplit "\r\n" requestStr).drop 1)
  match host with
  | none => none
  | some h => if h = "" then none else some (h, port)

/-- `OffshoreProxy.create_error_response`: the synthesized error response; the
`Content-Length` header is the hard-coded text `54` for every status. -/
def createErrorResponse (statusCode : Nat) (statusText : String) : String :=
  "HTTP/1.1 " ++ toString statusCode ++ " " ++ statusText ++
    "\r\nContent-Type: text/html\r\nContent-Length: 54\r\n\r\n<html><body><h1>" ++
    toString statusCode ++ " " ++ statusText ++ "</h1></body></html>"

/-- `OffshoreProxy.handle_http_request` over the network oracle: resolve the
destination, 400 without a truthy host, 502 when connecting (or sending)
raises, otherwise the concatenation of the chunks collected until the
inactivity timeout — an empty string when the timeout fires before any byte.
The second component records the destination connection attempts made. -/
def handleHttpRequest (net : String → Nat → NetOutcome) (requestStr url : String) :
    String × List NetAction :=
  match resolveHost requestStr url with
  | none => (createErrorResponse 400 "Bad Request - No host specified", [])
  | some (host, port) =>
    match net host port with
    | NetOutcome.connectFail =>
      (createErrorResponse 502 "Bad Gateway", [NetAction.connect host port])
    | NetOutcome.ok chunks =>
      (chunks.foldl (fun acc c => acc ++ c) "", [NetAction.connect host port])

/-- `OffshoreProxy.handle_connect_request`: the canned reply, no tunnel. -/
def handleConnectRequest : String × List NetAction :=
  ("HTTP/1.1 200 Connection Established\r\n\r\n", [])

/-- `request_line.split(' ', 2)` on the first `\r\n`-separated line. -/
def requestLineParts (requestStr : String) : List String :=
  pySplit2Spaces ((pySplit "\r\n" requestStr).headD "")

/-- `OffshoreProxy.process_request`: split off the request line; a failed
three-way unpack (fewer than three fields) raises and becomes the 500
response; `CONNECT` takes the canned branch; everything else is forwarded by
`handle_http_request`. -/
def processRequest (net : String → Nat → NetOutcome) (requestStr : String) :
    String × List NetAction :=
  match requestLineParts requestStr with
  | [method, url, _version] =>
    if method = "CONNECT" then handleConnectRequest
    else handleHttpRequest net requestStr url
  | _ => (createErrorResponse 500 "Internal Server Error", [])

/-! ## Response-text observers (verification-side parsing helpers) -/

/-- The header block of an HTTP response text (before the first blank line). -/
def headerSection (s : String) : String :=
  (pySplit "\r\n\r\n" s).headD ""

/-- The body of an HTTP response text (after the first blank line). -/
def bodySection (s : String) : String :=
  match pySplit "\r\n\r\n" s with
  | [] => ""
  | [_] => ""
  | _ :: rest => strJoinSep "\r\n\r\n" rest

/-- The declared `Content-Length` of a response text, when a header of that
name is present with a digit value. -/
def declaredContentLength (s : String) : Option Nat :=
  match findContentLengthLine (pySplit "\r\n" (headerSection s)) with
  | none => none
  | some line => charsToNat (pyStrip (afterFirstColon line)).data
where
  findContentLengthLine : List String → Option String
    | [] => none
    | line :: rest =>
      if strStartsWith (strToLower line) "content-length:" then some line
      else findContentLengthLine rest

/-! ## Pump event observers (verification-side) -/

/-- The request strings written by the pump, in the order of the
`send_message(0, ...)` calls. -/
def writtenPayloads (evs : List PumpEvent) : List String :=
  evs.filterMap (fun e => match e with
    | PumpEvent.write _ s => some s
    | PumpEvent.readResp _ => none)

/-- Single-in-flight check on a pump event trace: every write is immediately
followed by the completed read of its response before the next write starts. -/
def alternatesWriteRead : List PumpEvent → Bool
  | [] => true
  | PumpEvent.write _ _ :: PumpEvent.readResp _ :: rest => alternatesWriteRead rest
  | _ => false

/-! # Theorems -/

/-! ## General framing lemmas -/

theorem be32_roundtrip (n : Nat) (h : n < 4294967296) :
    be32Decode (be32Encode n) = n := by
  simp only [be32Encode, be32Decode]
  omega

theorem be32_roundtrip_check : be32Decode (be32Encode 65536) = 65536 :=
  be32_roundtrip 65536 (by norm_num)

theorem recvAll_exact (l r : List Nat) : recvAll l.length (l ++ r) = some (l, r) := by
  simp [recvAll]

/-! ## Offshore loop lemmas -/

theorem frames_type_one_aux (proc : List Nat → List Nat) :
    ∀ (n : Nat) (s : List Nat), s.length ≤ n → ∀ f ∈ handleShipConnection proc s, f.1 = 1 := by
  intro n
  induction n with
  | zero =>
    intro s hs
    have : s = [] := List.eq_nil_of_length_eq_zero (Nat.le_zero.mp hs)
    subst this
    rw [handleShipConnection]
    simp
  | succ n ih =>
    intro s hs f hf
    rw [handleShipConnection] at hf
    by_cases h5 : s.length < 5
    · simp [h5] at hf
    · rw [dif_neg h5] at hf
      by_cases ht : (s.take 5).getD 4 0 ≠ 0
      · rw [if_pos ht] at hf
        exact ih (s.drop 5) (by simp [List.length_drop]; omega) f hf
      · rw [if_neg ht] at hf
        by_cases hlen : (s.drop 5).length < be32Decode ((s.take 5).take 4)
        · rw [dif_pos hlen] at hf
          simp at hf
        · rw [dif_neg hlen] at hf
          by_cases hdat : (s.drop 5).take (be32Decode ((s.take 5).take 4)) = []
          · rw [if_pos hdat] at hf
            simp at hf
          · rw [if_neg hdat] at hf
            rcases List.mem_cons.mp hf with rfl | hf'
            · rfl
            · exact ih _ (by simp [List.length_drop]; omega) f hf'

/-- Every frame the offshore loop hands to `send_message` carries type `1`,
whatever the request processor returns. -/
theorem frames_type_one (proc : List Nat → List Nat) (s : List Nat) :
    ∀ f ∈ handleShipConnection proc s, f.1 = 1 :=
  frames_type_one_aux proc s.length s (Nat.le_refl _)

/-- A well-formed type-0 frame at the head of the stream is processed —
whatever response `proc` produces — and the loop then continues on the rest of
the stream: a destination-side failure response never ends the loop. -/
theorem handleShip_processes_head (proc : List Nat → List Nat) (req rest : List Nat)
    (hne : req ≠ []) (hlt : req.length < 4294967296) :
    handleShipConnection proc (encodeMessage 0 req ++ rest) =
      (1, proc req) :: handleShipConnection proc rest := by
  have hs : encodeMessage 0 req ++ rest = (be32Encode req.length ++ [0]) ++ (req ++ rest) := by
    simp [encodeMessage]
  have hlen5 : (be32Encode req.length ++ [0]).length = 5 := by simp [be32Encode]
  rw [hs, handleShipConnection]
  have htake : ((be32Encode req.length ++ [0]) ++ (req ++ rest)).take 5 =
      be32Encode req.length ++ [0] := by
    rw [← hlen5]; exact List.take_left _ _
  have hdrop : ((be32Encode req.length ++ [0]) ++ (req ++ rest)).drop 5 = req ++ rest := by
    rw [← hlen5]; exact List.drop_left _ _
  have hlenall : ¬ ((be32Encode req.length ++ [0]) ++ (req ++ rest)).length < 5 := by
    simp [be32Encode, List.length_append]
  rw [dif_neg hlenall, htake, hdrop]
  have hgetd : (be32Encode req.length ++ [0])[4]?.getD 0 = 0 := by
    simp [be32Encode]
  have htake4 : (be32Encode req.length ++ [0]).take 4 = be32Encode req.length := by
    have h4 : (be32Encode req.length).length = 4 := by simp [be32Encode]
    rw [← h4]; exact List.take_left _ _
  have hnotlt : ¬ (req ++ rest).length < req.length := by
    simp [List.length_append]
  simp [hgetd, htake4, be32_roundtrip _ hlt, hnotlt, hne, List.take_left, List.drop_left]

/-! ## Pump lemmas -/

theorem pump_ok_head (exchange : String → ExchangeOutcome) (f : String → String)
    (hx : ∀ s, exchange s = ExchangeOutcome.ok (f s)) (item : RequestItem)
    (rest : List RequestItem) :
    (processRequests exchange true (item :: rest)).1 =
      ⟨item, some (f (buildRequestString item)), none⟩ ::
        (processRequests exchange true rest).1 ∧
    (processRequests exchange true (item :: rest)).2.1 =
      PumpEvent.write 0 (buildRequestString item) ::
        PumpEvent.readResp (f (buildRequestString item)) ::
          (processRequests exchange true rest).2.1 := by
  constructor <;> simp [processRequests, hx]

/-- On an always-successful upstream socket the pump completes the queue in
order: items come back in enqueue order, each with the response the oracle
gives for its own request string, and the event trace is exactly one
write/read block per item. -/
theorem pump_ok_shape (exchange : String → ExchangeOutcome) (f : String → String)
    (hx : ∀ s, exchange s = ExchangeOutcome.ok (f s)) (items : List RequestItem) :
    (processRequests exchange true items).1.map CompletedItem.item = items ∧
    (∀ c ∈ (processRequests exchange true items).1,
      c.response = some (f (buildRequestString c.item)) ∧ c.error = none) ∧
    (processRequests exchange true items).2.1 =
      items.flatMap (fun item =>
        [PumpEvent.write 0 (buildRequestString item),
         PumpEvent.readResp (f (buildRequestString item))]) := by
  induction items with
  | nil => simp [processRequests]
  | cons item rest ih =>
    obtain ⟨ih1, ih2, ih3⟩ := ih
    obtain ⟨h1, h2⟩ := pump_ok_head exchange f hx item rest
    refine ⟨?_, ?_, ?_⟩
    · rw [h1]; simp [ih1]
    · rw [h1]; intro c hc
      rcases List.mem_cons.mp hc with rfl | hc'
      · simp
      · exact ih2 c hc'
    · rw [h2]; simp [ih3]

theorem writtenPayloads_blocks (items : List RequestItem) (f : String → String) :
    writtenPayloads (items.flatMap (fun item =>
      [PumpEvent.write 0 (buildRequestString item),
       PumpEvent.readResp (f (buildRequestString item))])) =
      items.map buildRequestString := by
  induction items with
  | nil => rfl
  | cons item rest ih => simp [writtenPayloads] at ih ⊢; exact ih

theorem alternates_blocks (items : List RequestItem) (f : String → String) :
    alternatesWriteRead (items.flatMap (fun item =>
      [PumpEvent.write 0 (buildRequestString item),
       PumpEvent.readResp (f (buildRequestString item))])) = true := by
  induction items with
  | nil => rfl
  | cons item rest ih => simpa [alternatesWriteRead] using ih

/-- When every exchange on the (broken) socket raises, every queued item is
still dequeued, completed with an error and no response — and the `connected`
flag is still true afterwards. -/
theorem pump_fail_shape (exchange : String → ExchangeOutcome)
    (hfail : ∀ s, ∃ e, exchange s = ExchangeOutcome.sendErr e ∨
      exchange s = ExchangeOutcome.readErr e) (items : List RequestItem) :
    (processRequests exchange true items).1.map CompletedItem.item = items ∧
    (∀ c ∈ (processRequests exchange true items).1,
      c.response = none ∧ c.error.isSome) ∧
    (processRequests exchange true items).2.2 = true := by
  induction items with
  | nil => simp [processRequests]
  | cons item rest ih =>
    obtain ⟨ih1, ih2, ih3⟩ := ih
    obtain ⟨e, he⟩ := hfail (buildRequestString item)
    have h1 : (processRequests exchange true (item :: rest)).1 =
        ⟨item, none, some e⟩ :: (processRequests exchange true rest).1 := by
      rcases he with he | he <;> simp [processRequests, he]
    have h3 : (processRequests exchange true (item :: rest)).2.2 =
        (processRequests exchange true rest).2.2 := by
      rcases he with he | he <;> simp [processRequests, he]
    refine ⟨?_, ?_, ?_⟩
    · rw [h1]; simp [ih1]
    · rw [h1]; intro c hc
      rcases List.mem_cons.mp hc with rfl | hc'
      · simp
      · exact ih2 c hc'
    · rw [h3]; exact ih3

theorem pump_writes_type_zero (exchange : String → ExchangeOutcome) :
    ∀ (connected : Bool) (items : List RequestItem) (t : Nat) (s : String),
      PumpEvent.write t s ∈ (processRequests exchange connected items).2.1 → t = 0 := by
  intro connected items
  induction items generalizing connected with
  | nil => intro t s h; simp [processRequests] at h
  | cons item rest ih =>
    intro t s h
    cases connected with
    | false =>
      simp only [processRequests] at h
      exact ih false t s (by simpa using h)
    | true =>
      rcases hE : exchange (buildRequestString item) with resp | e | e <;>
        simp only [processRequests, hE, if_neg (by simp : ¬ (true = false))] at h
      · rcases List.mem_cons.mp h with heq | h'
        · cases heq; rfl
        · rcases List.mem_cons.mp h' with heq | h''
          · cases heq
          · exact ih true t s h''
      · exact ih true t s h
      · rcases List.mem_cons.mp h with heq | h'
        · cases heq; rfl
        · exact ih true t s h'

/-! ## Header-dict lemmas -/

theorem msgGet_self (raws : List (String × String))
    (h : raws.Pairwise (fun a b => strToLower a.1 ≠ strToLower b.1)) :
    ∀ p ∈ raws, msgGet raws p.1 = p.2 := by
  induction raws with
  | nil => simp
  | cons q rest ih =>
    intro p hp
    rcases List.mem_cons.mp hp with rfl | hp'
    · simp [msgGet, List.find?]
    · have hq : strToLower q.1 ≠ strToLower p.1 :=
        (List.pairwise_cons.mp h).1 p hp'
      have hrec := ih (List.pairwise_cons.mp h).2 p hp'
      simp only [msgGet] at hrec ⊢
      rw [List.find?_cons_of_neg]
      · exact hrec
      · simp [hq]

theorem dict_fold_append (full : List (String × String)) :
    ∀ (rest acc : List (String × String)),
      (∀ p ∈ rest, msgGet full p.1 = p.2) →
      (∀ p ∈ rest, ∀ q ∈ acc, q.1 ≠ p.1) →
      rest.Pairwise (fun a b => a.1 ≠ b.1) →
      rest.foldl (fun d p => dictAssign d p.1 (msgGet full p.1)) acc = acc ++ rest := by
  intro rest
  induction rest with
  | nil => intro acc _ _ _; simp
  | cons p rest ih =>
    intro acc h1 h2 h3
    rw [List.foldl_cons]
    have hany : acc.any (fun q => q.1 = p.1) = false := by
      simp only [List.any_eq_false, decide_eq_true_eq]
      intro q hq
      exact h2 p (by simp) q hq
    have hassign : dictAssign acc p.1 (msgGet full p.1) = acc ++ [p] := by
      rw [h1 p (by simp)]
      simp only [dictAssign, hany]
      simp
    rw [hassign, ih (acc ++ [p]) ?_ ?_ ?_]
    · simp
    · intro r hr; exact h1 r (by simp [hr])
    · intro r hr q hq
      rcases List.mem_append.mp hq with hq' | hq'
      · exact h2 r (by simp [hr]) q hq'
      · have : q = p := by simpa using hq'
        subst this
        exact (List.pairwise_cons.mp h3).1 r hr
    · exact (List.pairwise_cons.mp h3).2

/-- When no two raw header names collide case-insensitively, the dict built by
`handle_request` keeps every header, in order, with its own value. -/
theorem dictOfMessage_eq_self (raws : List (String × String))
    (h : raws.Pairwise (fun a b => strToLower a.1 ≠ strToLower b.1)) :
    dictOfMessage raws = raws := by
  unfold dictOfMessage
  rw [dict_fold_append raws raws [] (msgGet_self raws h) (by simp) ?_]
  · simp
  · exact h.imp (fun {a b} hab => fun hEq => hab (by rw [hEq]))

/-! ## Claim theorems -/

/-- C1: for every queue of concurrently submitted requests (given in enqueue
order) and every successful exchange oracle, the pump writes the framed
requests onto the upstream connection in exactly enqueue order (FIFO), stores
in each Pending Request precisely the response returned for its own request
string (never another one's), and the event trace alternates strictly
write-then-full-read, so a second write never begins before the prior
response has been read (single-in-flight). -/
theorem claim_c1_fifo_correlation_single_in_flight
    (exchange : String → ExchangeOutcome) (f : String → String)
    (hx : ∀ s, exchange s = ExchangeOutcome.ok (f s)) (items : List RequestItem) :
    (processRequests exchange true items).1.map CompletedItem.item = items ∧
    (∀ c ∈ (processRequests exchange true items).1,
      c.response = some (f (buildRequestString c.item)) ∧ c.error = none) ∧
    writtenPayloads (processRequests exchange true items).2.1 =
      items.map buildRequestString ∧
    alternatesWriteRead (processRequests exchange true items).2.1 = true := by
  obtain ⟨h1, h2, h3⟩ := pump_ok_shape exchange f hx items
  exact ⟨h1, h2, by rw [h3]; exact writtenPayloads_blocks items f,
    by rw [h3]; exact alternates_blocks items f⟩

theorem claim_c1_fifo_correlation_single_in_flight_witness :
    (processRequests (fun _ => ExchangeOutcome.ok "R") true
        [⟨"GET", "/a", [], ""⟩, ⟨"POST", "/b", [("A", "1")], "x"⟩]).1.map
      CompletedItem.item = [⟨"GET", "/a", [], ""⟩, ⟨"POST", "/b", [("A", "1")], "x"⟩] ∧
    (∀ c ∈ (processRequests (fun _ => ExchangeOutcome.ok "R") true
        [⟨"GET", "/a", [], ""⟩, ⟨"POST", "/b", [("A", "1")], "x"⟩]).1,
      c.response = some "R" ∧ c.error = none) ∧
    writtenPayloads (processRequests (fun _ => ExchangeOutcome.ok "R") true
        [⟨"GET", "/a", [], ""⟩, ⟨"POST", "/b", [("A", "1")], "x"⟩]).2.1 =
      [⟨"GET", "/a", [], ""⟩, ⟨"POST", "/b", [("A", "1")], "x"⟩].map buildRequestString ∧
    alternatesWriteRead (processRequests (fun _ => ExchangeOutcome.ok "R") true
        [⟨"GET", "/a", [], ""⟩, ⟨"POST", "/b", [("A", "1")], "x"⟩]).2.1 = true :=
  claim_c1_fifo_correlation_single_in_flight (fun _ => ExchangeOutcome.ok "R")
    (fun _ => "R") (fun _ => rfl)
    [⟨"GET", "/a", [], ""⟩, ⟨"POST", "/b", [("A", "1")], "x"⟩]

/-- C2: the claim's round-trip is broken exactly at payload size 0.  Encoding
a type-1 frame with the empty payload and reading it back with
`read_response` does not reproduce `(1, b"")`: the `if not response_data`
check conflates the empty payload with a closed connection and the read
fails with "Failed to read response data".  A nonempty payload round-trips,
and the encoded length field always equals the exact payload byte count. -/
theorem claim_c2_zero_length_roundtrip_fails :
    readResponse (encodeMessage 1 []) = Except.error "Failed to read response data" ∧
    readResponse (encodeMessage 1 [104, 105]) = Except.ok [104, 105] ∧
    (∀ (t : Nat) (p : List Nat), (encodeMessage t p).take 4 = be32Encode p.length) := by
  refine ⟨rfl, rfl, ?_⟩
  intro t p
  have h4 : (be32Encode p.length).length = 4 := by simp [be32Encode]
  calc (encodeMessage t p).take 4
      = (be32Encode p.length ++ ([t] ++ p)).take (be32Encode p.length).length := by
        simp [encodeMessage, h4]
    _ = be32Encode p.length := List.take_left _ _

/-- C3 (counterexample): after an I/O failure on the in-flight exchange the
pump has *not* marked itself Disconnected — `process_requests` contains no
assignment clearing `self.connected`, so the flag is still true. -/
theorem claim_c3_not_marked_disconnected :
    (processRequests (fun _ => ExchangeOutcome.readErr "Connection reset by peer") true
      [⟨"GET", "http://example.com/", [], ""⟩]).2.2 ≠ false := by decide

/-- C3 (amended): on a broken upstream socket (every send/receive attempt
raises) the pump never marks itself Disconnected, yet every queued item — the
in-flight one and all K that follow, including ones enqueued after the break —
is dequeued in order and completed with the error raised by its own failed
I/O attempt and no response, so none hangs. -/
theorem claim_c3_all_queued_requests_fail (exchange : String → ExchangeOutcome)
    (hfail : ∀ s, ∃ e, exchange s = ExchangeOutcome.sendErr e ∨
      exchange s = ExchangeOutcome.readErr e) (items : List RequestItem) :
    (processRequests exchange true items).1.map CompletedItem.item = items ∧
    (∀ c ∈ (processRequests exchange true items).1,
      c.response = none ∧ c.error.isSome) ∧
    (processRequests exchange true items).2.2 = true :=
  pump_fail_shape exchange hfail items

theorem claim_c3_all_queued_requests_fail_witness :
    (processRequests (fun _ => ExchangeOutcome.readErr "Connection reset by peer") true
        [⟨"GET", "/a", [], ""⟩, ⟨"GET", "/b", [], ""⟩]).1.map CompletedItem.item =
      [⟨"GET", "/a", [], ""⟩, ⟨"GET", "/b", [], ""⟩] ∧
    (∀ c ∈ (processRequests (fun _ => ExchangeOutcome.readErr "Connection reset by peer")
        true [⟨"GET", "/a", [], ""⟩, ⟨"GET", "/b", [], ""⟩]).1,
      c.response = none ∧ c.error.isSome) ∧
    (processRequests (fun _ => ExchangeOutcome.readErr "Connection reset by peer") true
      [⟨"GET", "/a", [], ""⟩, ⟨"GET", "/b", [], ""⟩]).2.2 = true :=
  claim_c3_all_queued_requests_fail _
    (fun _ => ⟨"Connection reset by peer", Or.inr rfl⟩)
    [⟨"GET", "/a", [], ""⟩, ⟨"GET", "/b", [], ""⟩]

/-- C4: the receiver does not discard the payload of a frame with an
unrecognized type byte.  On the byte stream `frame(2, 5 zero bytes)` followed
by the valid request `frame(0, [71])`, the offshore loop skips only the 5
header bytes, re-parses the payload bytes as a header (reading a zero-length
"request" there and closing the connection), and processes nothing — whereas
the discard policy the claim states would process the following request.  The
ship side likewise raises on an unrecognized type instead of discarding. -/
theorem claim_c4_unrecognized_type_not_discarded :
    handleShipConnection (fun d => d)
        (encodeMessage 2 [0, 0, 0, 0, 0] ++ encodeMessage 0 [71]) = [] ∧
    handleShipConnectionSkipSpec (fun d => d)
        (encodeMessage 2 [0, 0, 0, 0, 0] ++ encodeMessage 0 [71]) = [(1, [71])] ∧
    readResponse (encodeMessage 2 [5]) = Except.error "Unexpected message type: 2" := by
  refine ⟨?_, ?_, rfl⟩ <;>
    simp [handleShipConnection, handleShipConnectionSkipSpec, encodeMessage,
      be32Encode, be32Decode]

/-- C5: every request whose request line parses to method `CONNECT` gets the
immediate canned reply `"HTTP/1.1 200 Connection Established\r\n\r\n"`, with
no destination connection attempted and no tunnel; and every frame the
offshore loop writes back is a type-1 message. -/
theorem claim_c5_connect_canned_no_tunnel
    (net : String → Nat → NetOutcome) (s target version : String)
    (h : requestLineParts s = ["CONNECT", target, version])
    (proc : List Nat → List Nat) (bytes : List Nat) (frame : Nat × List Nat)
    (hf : frame ∈ handleShipConnection proc bytes) :
    processRequest net s = ("HTTP/1.1 200 Connection Established\r\n\r\n", []) ∧
    frame.1 = 1 := by
  refine ⟨?_, frames_type_one proc bytes frame hf⟩
  simp [processRequest, h, handleConnectRequest]

theorem claim_c5_connect_canned_no_tunnel_witness :
    processRequest (fun _ _ => NetOutcome.ok [])
        "CONNECT example.com:443 HTTP/1.1\r\n\r\n" =
      ("HTTP/1.1 200 Connection Established\r\n\r\n", []) ∧
    ((1, [71]) : Nat × List Nat).1 = 1 :=
  claim_c5_connect_canned_no_tunnel (fun _ _ => NetOutcome.ok [])
    "CONNECT example.com:443 HTTP/1.1\r\n\r\n" "example.com:443" "HTTP/1.1"
    (by decide) (fun d => d) (encodeMessage 0 [71]) (1, [71])
    (by simp [handleShipConnection, encodeMessage, be32Encode, be32Decode])

/-- C6 (counterexample): a read timeout that expires before the first
response byte arrives does not yield a synthesized error response.  With a
destination that accepts the connection but sends nothing before the
inactivity timeout, `handle_http_request` returns the empty byte string —
which is neither the 502 Bad Gateway nor the 500 Internal Server Error
response the claim requires. -/
theorem claim_c6_timeout_before_first_byte_not_502 :
    handleHttpRequest (fun _ _ => NetOutcome.ok [])
        "GET http://example.com/ HTTP/1.1\r\nHost: example.com\r\n\r\n"
        "http://example.com/" =
      ("", [NetAction.connect "example.com" 80]) ∧
    ("" : String) ≠ createErrorResponse 502 "Bad Gateway" ∧
    ("" : String) ≠ createErrorResponse 500 "Internal Server Error" :=
  ⟨by decide, by decide, by decide⟩

/-- C6 (amended): a resolution/connect failure at the destination yields the
synthesized 502 Bad Gateway response, an unparseable request line yields the
500 Internal Server Error response, and the upstream loop always frames the
result as type 1 and continues with the next frame, so a destination-side
failure never tears the upstream connection down; but a read timeout before
the first response byte yields the empty response (treated as "response
complete"), not a synthesized error. -/
theorem claim_c6_destination_failures :
    (∀ (net : String → Nat → NetOutcome) (req url host : String) (port : Nat),
      resolveHost req url = some (host, port) → net host port = NetOutcome.connectFail →
      handleHttpRequest net req url =
        (createErrorResponse 502 "Bad Gateway", [NetAction.connect host port])) ∧
    (∀ (net : String → Nat → NetOutcome) (req url host : String) (port : Nat),
      resolveHost req url = some (host, port) → net host port = NetOutcome.ok [] →
      handleHttpRequest net req url = ("", [NetAction.connect host port])) ∧
    (∀ (net : String → Nat → NetOutcome) (s : String),
      (requestLineParts s).length ≠ 3 →
      processRequest net s = (createErrorResponse 500 "Internal Server Error", [])) ∧
    (∀ (proc : List Nat → List Nat) (req rest : List Nat),
      req ≠ [] → req.length < 4294967296 →
      handleShipConnection proc (encodeMessage 0 req ++ rest) =
        (1, proc req) :: handleShipConnection proc rest) := by
  refine ⟨?_, ?_, ?_, handleShip_processes_head⟩
  · intro net req url host port h1 h2
    simp [handleHttpRequest, h1, h2]
  · intro net req url host port h1 h2
    simp [handleHttpRequest, h1, h2]
  · intro net s h
    simp only [processRequest]
    rcases hp : requestLineParts s with _ | ⟨a, _ | ⟨b, _ | ⟨c, _ | ⟨d, tl⟩⟩⟩⟩
    · rfl
    · rfl
    · rfl
    · exact absurd (by rw [hp]; rfl) h
    · rfl

theorem claim_c6_destination_failures_witness :
    handleHttpRequest (fun _ _ => NetOutcome.connectFail)
        "GET http://example.com/ HTTP/1.1\r\n\r\n" "http://example.com/" =
      (createErrorResponse 502 "Bad Gateway", [NetAction.connect "example.com" 80]) ∧
    handleHttpRequest (fun _ _ => NetOutcome.ok [])
        "GET http://e.com/ HTTP/1.1\r\n\r\n" "http://e.com/" =
      ("", [NetAction.connect "e.com" 80]) ∧
    processRequest (fun _ _ => NetOutcome.ok []) "garbage" =
      (createErrorResponse 500 "Internal Server Error", []) ∧
    handleShipConnection (fun d => d) (encodeMessage 0 [71] ++ []) =
      (1, [71]) :: handleShipConnection (fun d => d) [] :=
  ⟨claim_c6_destination_failures.1 _ _ _ _ _ (by decide) rfl,
   claim_c6_destination_failures.2.1 _ _ _ _ _ (by decide) rfl,
   claim_c6_destination_failures.2.2.1 _ _ (by decide),
   claim_c6_destination_failures.2.2.2 _ [71] [] (by decide) (by decide)⟩

/-- C7: after a completed wait, a (truthy) error set on the Pending Request
produces an HTTP 502 with the message; a wait that ends with neither error
nor response produces the distinct 504 Gateway Timeout; otherwise the stored
response bytes are written back verbatim, unreparsed. -/
theorem claim_c7_result_dispatch :
    (∀ (e : String) (r : Option String), e ≠ "" →
      handleRequestResult (some e) r =
        ClientAction.sendError 502 ("Proxy Error: " ++ e)) ∧
    handleRequestResult none none = ClientAction.sendError 504 "Gateway Timeout" ∧
    (∀ e : String, e ≠ "" →
      handleRequestResult (some e) none ≠ handleRequestResult none none) ∧
    (∀ resp : String, resp ≠ "" →
      handleRequestResult none (some resp) = ClientAction.writeRaw resp) := by
  refine ⟨?_, rfl, ?_, ?_⟩ <;> intros <;> simp_all [handleRequestResult, pyTruthy]

theorem claim_c7_result_dispatch_witness :
    handleRequestResult (some "boom") none =
      ClientAction.sendError 502 "Proxy Error: boom" ∧
    handleRequestResult none (some "HTTP/1.1 200 OK\r\n\r\nok") =
      ClientAction.writeRaw "HTTP/1.1 200 OK\r\n\r\nok" :=
  ⟨claim_c7_result_dispatch.1 "boom" none (by decide),
   claim_c7_result_dispatch.2.2.2 "HTTP/1.1 200 OK\r\n\r\nok" (by decide)⟩

/-- C8 (counterexample): header serialization does not permit duplicate keys.
For the raw header list `[("X","1"), ("X","2")]` the request actually built —
through the `dict(self.headers)` conversion in `handle_request` — differs
from the serialization of the full duplicate-preserving list. -/
theorem claim_c8_duplicate_headers_collapsed :
    buildFromRawHeaders "GET" "http://e/" [("X", "1"), ("X", "2")] "" ≠
      buildRequestString ⟨"GET", "http://e/", [("X", "1"), ("X", "2")], ""⟩ := by
  decide

/-- C8 (amended): each dequeued request is serialized as the canonical
request line, `name: value` header lines in preserved order, a blank line and
the body, and framed as a type-0 message; but duplicate header names are
collapsed by the dict built in `handle_request` into a single header carrying
the first received value, so duplicates are not preserved.  When no two
header names collide case-insensitively the serialization carries every
header in order. -/
theorem claim_c8_serialization_order_no_duplicates :
    (∀ (method url body : String) (raws : List (String × String)),
      raws.Pairwise (fun a b => strToLower a.1 ≠ strToLower b.1) →
      buildFromRawHeaders method url raws body =
        buildRequestString ⟨method, url, raws, body⟩) ∧
    dictOfMessage [("X", "1"), ("X", "2")] = [("X", "1")] ∧
    (∀ (exchange : String → ExchangeOutcome) (connected : Bool)
        (items : List RequestItem) (t : Nat) (s : String),
      PumpEvent.write t s ∈ (processRequests exchange connected items).2.1 → t = 0) := by
  refine ⟨?_, by decide, fun exchange => pump_writes_type_zero exchange⟩
  intro method url body raws h
  unfold buildFromRawHeaders
  rw [dictOfMessage_eq_self raws h]

theorem claim_c8_serialization_order_no_duplicates_witness :
    buildFromRawHeaders "GET" "http://e/" [("A", "1"), ("B", "2")] "body" =
      buildRequestString ⟨"GET", "http://e/", [("A", "1"), ("B", "2")], "body"⟩ ∧
    (0 : Nat) = 0 :=
  ⟨claim_c8_serialization_order_no_duplicates.1 "GET" "http://e/" "body"
      [("A", "1"), ("B", "2")] (by decide),
   claim_c8_serialization_order_no_duplicates.2.2 (fun _ => ExchangeOutcome.ok "R")
      true [⟨"GET", "/", [], ""⟩] 0 (buildRequestString ⟨"GET", "/", [], ""⟩)
      (by decide)⟩

/-- C9: every synthesized error response the Remote Executor produces (its
three call sites: 502 Bad Gateway, 500 Internal Server Error, 400 Bad
Request - No host specified) declares `Content-Length: 54`, while the actual
HTML bodies of the 502 and the 500 responses are 50 and 60 bytes long (the
text is ASCII, so characters are bytes): the declared length differs from the
body length and the two bodies differ from each other. -/
theorem claim_c9_content_length_is_54_regardless :
    declaredContentLength (createErrorResponse 502 "Bad Gateway") = some 54 ∧
    declaredContentLength (createErrorResponse 500 "Internal Server Error") = some 54 ∧
    declaredContentLength
      (createErrorResponse 400 "Bad Request - No host specified") = some 54 ∧
    (bodySection (createErrorResponse 502 "Bad Gateway")).length = 50 ∧
    (bodySection (createErrorResponse 500 "Internal Server Error")).length = 60 ∧
    (bodySection (createErrorResponse 502 "Bad Gateway")).length ≠ 54 ∧
    (bodySection (createErrorResponse 500 "Internal Server Error")).length ≠ 54 ∧
    (bodySection (createErrorResponse 502 "Bad Gateway")).length ≠
      (bodySection (createErrorResponse 500 "Internal Server Error")).length :=
  ⟨by decide, by decide, by decide, by decide, by decide, by decide, by decide, by decide⟩

/-- C10: a framed response with declared payload length 0 is never delivered
as an empty response: `_recv_all(0)` returns the empty byte string, which
`read_response` reports as "Failed to read response data" whatever bytes
follow on the stream, and the handler turns that error into an HTTP 502 —
the client never sees an empty response body. -/
theorem claim_c10_zero_length_response_becomes_502 :
    (∀ rest : List Nat, readResponse (encodeMessage 1 [] ++ rest) =
      Except.error "Failed to read response data") ∧
    handleRequestResult (some "Failed to read response data") none =
      ClientAction.sendError 502 "Proxy Error: Failed to read response data" := by
  constructor
  · intro rest
    have h5 : recvAll 5 (encodeMessage 1 [] ++ rest) = some ([0, 0, 0, 0, 1], rest) := by
      have h := recvAll_exact [0, 0, 0, 0, 1] rest
      simpa [encodeMessage, be32Encode] using h
    simp only [readResponse, h5]
    simp [be32Decode, recvAll]
  · rfl

end ShipProxySystem
